import Mathlib

/-!
Shallow embedding of `src/multiframe.ts` (progressive multiframe
supersampling for the PlayCanvas model viewer).

Conventions of the embedding:
* JS numbers are modelled as rationals (`ℚ`); all arithmetic in the file
  (`gamma = 2.2`, blend alphas `1/(sampleId+1)`, jitter offsets) is exact
  in the source, so no rounding model is needed for the claims at hand.
* The PlayCanvas 4x4 matrix `data` array is modelled as `ℕ → ℚ`
  (column-major flat array, indices 0..15, as in the source).
* GPU side effects (texture writes) are modelled as an explicit trace of
  full-screen-quad draws: each `pc.drawQuadWithShader` call in the source
  becomes one `Draw` record capturing the target, the `multiplier` and
  `power` uniform values, the source texture bound, the `useBlend` flag,
  and the device blend-color alpha in effect at the time of the draw.
* The graphics device is a record of its observable blend state (the four
  cached blend factors readable as `device.blendSrc` …, the raw GL blend
  factors, and the GL constant blend color alpha) plus its dimensions.
  A raw `gl.blendFuncSeparate` call changes only the GL-level factors;
  `device.setBlendFunctionSeparate` (the device API) sets both.
* `Math.random()` is modelled as an injected stream `r : ℕ → ℚ` consumed
  in call order (two draws per grid cell).
-/

/-- Two-dimensional vector (`pc.Vec2`), rational components. -/
structure Vec2 where
  x : ℚ
  y : ℚ
deriving DecidableEq, Repr

/-- Source constant `gamma = 2.2` (multiframe.ts line 3). -/
def gamma : ℚ := 11 / 5

/-- Squared Euclidean length of a `Vec2`.  The source comparator compares
`a.length()` (true Euclidean lengths); since lengths are non-negative,
comparing them is equivalent to comparing their squares, which keeps the
embedding inside `ℚ`. -/
def sqLen (v : Vec2) : ℚ := v.x * v.x + v.y * v.y

/-- A texture: only its allocation dimensions matter for the claims. -/
structure Texture where
  width : ℕ
  height : ℕ
deriving DecidableEq, Repr

/-- WebGL blend-factor enum values used by the source. -/
def GL_ZERO : ℕ := 0
def GL_ONE : ℕ := 1
def GL_CONSTANT_ALPHA : ℕ := 32771
def GL_ONE_MINUS_CONSTANT_ALPHA : ℕ := 32772

/-- Observable graphics-device state: output dimensions, the four cached
blend factors (`device.blendSrc` etc., what the caller reads), the four
raw GL blend factors, and the GL constant blend-color alpha. -/
structure DeviceState where
  width : ℕ
  height : ℕ
  blendSrc : ℕ
  blendDst : ℕ
  blendSrcAlpha : ℕ
  blendDstAlpha : ℕ
  glBlendSrc : ℕ
  glBlendDst : ℕ
  glBlendSrcAlpha : ℕ
  glBlendDstAlpha : ℕ
  blendColorAlpha : ℚ
deriving DecidableEq, Repr

/-- Raw `gl.blendFuncSeparate`: sets the GL-level blend factors only; the
device's cached factors are not informed (the source bypasses the device
API here on purpose). -/
def glBlendFuncSeparate (dev : DeviceState) (src dst srcAlpha dstAlpha : ℕ) : DeviceState :=
  { dev with glBlendSrc := src, glBlendDst := dst,
             glBlendSrcAlpha := srcAlpha, glBlendDstAlpha := dstAlpha }

/-- Raw `gl.blendColor(0, 0, 0, a)`: only the alpha channel is consumed by
constant-alpha blending. -/
def glBlendColor (dev : DeviceState) (alpha : ℚ) : DeviceState :=
  { dev with blendColorAlpha := alpha }

/-- Device API `setBlendFunctionSeparate`: sets the cached factors and
the GL factors. -/
def setBlendFunctionSeparate (dev : DeviceState) (src dst srcAlpha dstAlpha : ℕ) : DeviceState :=
  { dev with blendSrc := src, blendDst := dst,
             blendSrcAlpha := srcAlpha, blendDstAlpha := dstAlpha,
             glBlendSrc := src, glBlendDst := dst,
             glBlendSrcAlpha := srcAlpha, glBlendDstAlpha := dstAlpha }

/-!
## Jitter injector (`constructor`, lines 88-109)

```ts
const pmat = this.camera.projectionMatrix;
let store = new pc.Vec2();
this.camera.onPreRender = () => {
    const sample = this.samples[this.sampleId];
    store.set(pmat.data[12], pmat.data[13]);
    pmat.data[8] += sample.x / device.width;
    pmat.data[9] += sample.y / device.height;
    this.camera._camera._viewMatDirty = true;
    this.camera._camera._viewProjMatDirty = true;
    this.globalTextureBiasUniform.setValue(this.sampleId === 0 ? 0.0 : -5.0);
}
this.camera.onPostRender = () => {
    pmat.data[8] = store.x;
    pmat.data[9] = store.y;
}
```
-/

/-- The `onPreRender` closure.  Returns the perturbed matrix, the value
written into the captured `store` variable, and the value written to the
`globalTextureBias` uniform.  Note the source reads `pmat.data[12]` and
`pmat.data[13]` into `store` while it perturbs `pmat.data[8]` and
`pmat.data[9]`. -/
def onPreRender (dev : DeviceState) (samples : List Vec2) (sampleId : ℕ)
    (pmat : ℕ → ℚ) : (ℕ → ℚ) × Vec2 × ℚ :=
  let sample := samples.getD sampleId ⟨0, 0⟩
  let store : Vec2 := ⟨pmat 12, pmat 13⟩
  let pmat1 := Function.update pmat 8 (pmat 8 + sample.x / (dev.width : ℚ))
  let pmat2 := Function.update pmat1 9 (pmat1 9 + sample.y / (dev.height : ℚ))
  (pmat2, store, if sampleId = 0 then 0 else -5)

/-- The `onPostRender` closure: writes `store` back into entries 8 and 9. -/
def onPostRender (store : Vec2) (pmat : ℕ → ℚ) : ℕ → ℚ :=
  Function.update (Function.update pmat 8 store.x) 9 store.y

/-- Pre-render perturbation followed by post-render restoration, as run
around one scene render. -/
def jitterRoundTrip (dev : DeviceState) (samples : List Vec2) (sampleId : ℕ)
    (pmat : ℕ → ℚ) : ℕ → ℚ :=
  let pre := onPreRender dev samples sampleId pmat
  onPostRender pre.2.1 pre.1

/-!
## Sample sequence generation (`constructor`, lines 71-86)

```ts
for (let x = 0; x < numSamples; ++x) {
    for (let y = 0; y < numSamples; ++y) {
        this.samples.push(new pc.Vec2(
            (x + Math.random()) / numSamples * 2.0 - 1.0,
            (y + Math.random()) / numSamples * 2.0 - 1.0
        ));
    }
}
this.samples.sort((a, b) => {
    const aL = a.length();
    const bL = b.length();
    return aL < bL ? -1 : (bL < aL ? 1 : 0);
});
```
-/

/-- The unsorted jittered grid: one sample per cell `(x, y)` of the N×N
grid, consuming two values of the random stream `r` per cell in call
order. -/
def genSamples (numSamples : ℕ) (r : ℕ → ℚ) : List Vec2 :=
  (List.range numSamples).flatMap fun x =>
    (List.range numSamples).map fun y =>
      ⟨((x : ℚ) + r (2 * (x * numSamples + y))) / (numSamples : ℚ) * 2 - 1,
       ((y : ℚ) + r (2 * (x * numSamples + y) + 1)) / (numSamples : ℚ) * 2 - 1⟩

/-- The comparator orders by Euclidean length ascending (ties keep order:
JS `Array.prototype.sort` is stable).  Comparing non-negative lengths is
equivalent to comparing squared lengths. -/
def sampleLE (a b : Vec2) : Bool := decide (sqLen a ≤ sqLen b)

/-- The sample list as built by the constructor: generated, then sorted
closest-first. -/
def multiframeSamples (numSamples : ℕ) (r : ℕ → ℚ) : List Vec2 :=
  (genSamples numSamples r).mergeSort sampleLE

/-!
## Multiframe resource / accumulation state
-/

/-- The resource- and progress-carrying fields of the `Multiframe` class. -/
structure MultiframeState where
  sampleId : ℕ
  samples : List Vec2
  firstTexture : Option Texture
  firstRenderTarget : Option Texture
  accumTexture : Option Texture
  accumRenderTarget : Option Texture
deriving DecidableEq, Repr

/-- Source `destroy()` (lines 133-153): each of the four resources is destroyed
and nulled only if it is currently non-null (so null members are never
dereferenced), in source order. -/
def MultiframeState.destroy (s : MultiframeState) : MultiframeState :=
  let s := if s.firstTexture.isSome then { s with firstTexture := none } else s
  let s := if s.firstRenderTarget.isSome then { s with firstRenderTarget := none } else s
  let s := if s.accumRenderTarget.isSome then { s with accumRenderTarget := none } else s
  if s.accumTexture.isSome then { s with accumTexture := none } else s

/-- Source `moved()` (lines 155-157). -/
def MultiframeState.moved (s : MultiframeState) : MultiframeState :=
  { s with sampleId := 0 }

/-- Source `create()` (lines 159-181): allocates both texture/render-target pairs
at the device dimensions (depth disabled; the accumulation texture uses
the HDR pixel format — neither affects the claims). -/
def MultiframeState.create (dev : DeviceState) (s : MultiframeState) : MultiframeState :=
  { s with
    firstTexture := some ⟨dev.width, dev.height⟩
    firstRenderTarget := some ⟨dev.width, dev.height⟩
    accumTexture := some ⟨dev.width, dev.height⟩
    accumRenderTarget := some ⟨dev.width, dev.height⟩ }

/-- Draw targets of `pc.drawQuadWithShader` calls in `prepareTexture`:
the accumulation render target, the first (output) render target, or the
backbuffer (`null` target). -/
inductive Target where
  | accum
  | first
  | screen
deriving DecidableEq, Repr

/-- Source texture bound to `texture_multiframeSource` for a draw. -/
inductive Source where
  | scene
  | accumulation
  | firstTex
deriving DecidableEq, Repr

/-- One `pc.drawQuadWithShader` call: target, bound source texture, the
`multiplier` and `power` uniform values, the `useBlend` flag passed, and
the device blend-color alpha in effect when the draw executes. -/
structure Draw where
  target : Target
  source : Source
  multiplier : ℚ
  power : ℚ
  useBlend : Bool
  blendAlpha : ℚ
deriving DecidableEq, Repr

/-- Lines 186-188 of `prepareTexture`: if the accumulation texture exists
and its dimensions differ from the device's, destroy all resources. -/
def resizeStep (dev : DeviceState) (s : MultiframeState) : MultiframeState :=
  match s.accumTexture with
  | some t =>
      if t.width ≠ dev.width ∨ t.height ≠ dev.height then s.destroy else s
  | none => s

/-- Lines 186-192 of `prepareTexture`: the resize check followed by lazy
allocation when no accumulation texture exists. -/
def ensureResources (dev : DeviceState) (s : MultiframeState) : MultiframeState :=
  let s1 := resizeStep dev s
  if s1.accumTexture = none then s1.create dev else s1

/-- Source `prepareTexture()` (lines 183-249), the body of one `step()`.
`hasRenderTarget` models `this.camera.renderTarget` being non-null.
Returns the new state, the new device state, the trace of draws issued,
and the boolean return value `this.sampleId < sampleCnt`. -/
def prepareTexture (dev0 : DeviceState) (hasRenderTarget : Bool)
    (s0 : MultiframeState) : MultiframeState × DeviceState × List Draw × Bool :=
  let s2 := ensureResources dev0 s0
  let sampleCnt := s2.samples.length
  let devDraws : DeviceState × List Draw :=
    if hasRenderTarget = true ∧ s2.sampleId < sampleCnt then
      if s2.sampleId = 0 then
        -- store the grabpass in both accumulation and current
        (dev0,
         [⟨.accum, .scene, 1, gamma, true, dev0.blendColorAlpha⟩,
          ⟨.first, .scene, 1, 1, true, dev0.blendColorAlpha⟩])
      else
        -- blend grabpass with accumulation buffer
        let blendSrc := dev0.blendSrc
        let blendDst := dev0.blendDst
        let blendSrcAlpha := dev0.blendSrcAlpha
        let blendDstAlpha := dev0.blendDstAlpha
        let devA := glBlendFuncSeparate dev0 GL_CONSTANT_ALPHA
          GL_ONE_MINUS_CONSTANT_ALPHA GL_ONE GL_ZERO
        let devB := glBlendColor devA (1 / ((s2.sampleId : ℚ) + 1))
        let blendDraw : Draw := ⟨.accum, .scene, 1, gamma, true, devB.blendColorAlpha⟩
        -- restore states
        let devC := setBlendFunctionSeparate devB blendSrc blendDst blendSrcAlpha blendDstAlpha
        -- resolve final frame
        if s2.sampleId = sampleCnt - 1 then
          (devC, [blendDraw,
                  ⟨.first, .accumulation, 1, 1 / gamma, false, devC.blendColorAlpha⟩])
        else
          (devC, [blendDraw])
    else
      (dev0, [])
  let dev1 := devDraws.1
  -- replace backbuffer with multiframe buffer
  let screenDraw : Draw := ⟨.screen, .firstTex, 1, 1, false, dev1.blendColorAlpha⟩
  let s3 := if s2.sampleId < sampleCnt then { s2 with sampleId := s2.sampleId + 1 } else s2
  (s3, dev1, devDraws.2 ++ [screenDraw], decide (s3.sampleId < sampleCnt))

/-- The scalar accumulator replicating the constant-alpha recurrence:
`acc_1 = sample_1`, `acc_(k+1) = acc_k * (k/(k+1)) + sample_(k+1) * (1/(k+1))`
(the blend weight applied to the newest sample at step `k` is `1/k`,
matching the source's `1.0 / (this.sampleId + 1)` with `sampleId = k-1`). -/
def accRec (smp : ℕ → ℚ) : ℕ → ℚ
  | 0 => 0
  | 1 => smp 1
  | (k + 2) =>
      accRec smp (k + 1) * (((k : ℚ) + 1) / ((k : ℚ) + 2))
        + smp (k + 2) * (1 / ((k : ℚ) + 2))

/-!
## Helper lemmas
-/

theorem destroy_fields (s : MultiframeState) :
    s.destroy = { s with firstTexture := none, firstRenderTarget := none,
                         accumTexture := none, accumRenderTarget := none } := by
  rcases s with ⟨sid, smp, ft, frt, atx, art⟩
  cases ft <;> cases frt <;> cases atx <;> cases art <;>
    simp [MultiframeState.destroy]

theorem ensureResources_sampleId (dev : DeviceState) (s : MultiframeState) :
    (ensureResources dev s).sampleId = s.sampleId := by
  unfold ensureResources resizeStep
  rcases h : s.accumTexture with _ | t
  · simp [h, MultiframeState.create]
  · simp only [h]
    split
    · simp [destroy_fields, MultiframeState.create]
    · simp [h, MultiframeState.create]

theorem ensureResources_samples (dev : DeviceState) (s : MultiframeState) :
    (ensureResources dev s).samples = s.samples := by
  unfold ensureResources resizeStep
  rcases h : s.accumTexture with _ | t
  · simp [h, MultiframeState.create]
  · simp only [h]
    split
    · simp [destroy_fields, MultiframeState.create]
    · simp [h, MultiframeState.create]

theorem ensureResources_eq_self (dev : DeviceState) (s : MultiframeState)
    (t : Texture) (h : s.accumTexture = some t)
    (hw : t.width = dev.width) (hh : t.height = dev.height) :
    ensureResources dev s = s := by
  unfold ensureResources resizeStep
  simp [h, hw, hh]

/-!
## Claim theorems
-/

/-- C8: on every render, the bias written by `onPreRender` is exactly 0
when the active sample index is 0 and exactly -5.0 for every sample index
greater than 0; no other bias values are ever produced. -/
theorem C8_sampling_bias (dev : DeviceState) (samples : List Vec2)
    (sampleId : ℕ) (pmat : ℕ → ℚ) :
    ((onPreRender dev samples sampleId pmat).2.2 = 0 ↔ sampleId = 0) ∧
    ((onPreRender dev samples sampleId pmat).2.2 = 0 ∨
      (onPreRender dev samples sampleId pmat).2.2 = -5) := by
  unfold onPreRender
  by_cases h : sampleId = 0 <;> simp [h]

/-- C9: `destroy` is safe on any state (total, null members guarded), it
nulls every resource reference, leaves the non-resource fields intact,
and a second call from the released state is a no-op with the same final
state. -/
theorem C9_destroy_safe_idempotent (s : MultiframeState) :
    s.destroy.firstTexture = none ∧
    s.destroy.firstRenderTarget = none ∧
    s.destroy.accumTexture = none ∧
    s.destroy.accumRenderTarget = none ∧
    s.destroy.sampleId = s.sampleId ∧
    s.destroy.samples = s.samples ∧
    s.destroy.destroy = s.destroy := by
  simp [destroy_fields]

/-- Matrix used to exercise the jitter round trip: principal-point entry
`data[8] = 1`, all other entries 0 (in particular `data[12] = 0`). -/
def pmatC1 : ℕ → ℚ := fun i => if i = 8 then 1 else 0

/-- Device state for the C1 evaluation: 1×1 output, arbitrary blend
state. -/
def devC1 : DeviceState := ⟨1, 1, 1, 0, 1, 0, 1, 0, 1, 0, 1⟩

/-- C1: the jitter round trip does not restore the principal-point
entries to their pre-perturbation values.  `onPreRender` saves
`pmat.data[12]`/`data[13]` into `store` but perturbs and later restores
`pmat.data[8]`/`data[9]`; evaluated at a matrix with `data[8] = 1` and
`data[12] = 0` and the zero sample offset, the round trip leaves
`data[8] = 0 ≠ 1`. -/
theorem C1_roundtrip_failing_input :
    jitterRoundTrip devC1 [⟨0, 0⟩] 0 pmatC1 8 = 0 ∧ pmatC1 8 = 1 := by
  constructor
  · norm_num [jitterRoundTrip, onPreRender, onPostRender, pmatC1, devC1,
      Function.update]
  · norm_num [pmatC1]

/-- General form of the C1 failure: for every matrix, device and sample,
the round trip overwrites entry 8 with the old entry 12 and entry 9 with
the old entry 13 (instead of restoring the old entries 8 and 9). -/
theorem jitterRoundTrip_entries (dev : DeviceState) (samples : List Vec2)
    (sampleId : ℕ) (pmat : ℕ → ℚ) :
    jitterRoundTrip dev samples sampleId pmat 8 = pmat 12 ∧
    jitterRoundTrip dev samples sampleId pmat 9 = pmat 13 := by
  constructor <;>
    simp [jitterRoundTrip, onPreRender, onPostRender, Function.update]

/-- C6: when `sampleId` equals the number of samples (CONVERGED), a step
performs no blend/resolve work (its only draw is the backbuffer
composite), leaves the state — in particular the output and accumulation
resources and `sampleId` — and the device unchanged, and returns `false`;
a repeated step from the resulting state behaves identically. -/
theorem C6_converged_idempotent (dev : DeviceState) (hasRT : Bool)
    (s : MultiframeState) (t : Texture)
    (h : s.accumTexture = some t) (hw : t.width = dev.width)
    (hh : t.height = dev.height) (hconv : s.sampleId = s.samples.length) :
    prepareTexture dev hasRT s =
      (s, dev, [⟨Target.screen, Source.firstTex, 1, 1, false, dev.blendColorAlpha⟩], false) ∧
    prepareTexture dev hasRT (prepareTexture dev hasRT s).1 =
      prepareTexture dev hasRT s := by
  have he : ensureResources dev s = s := ensureResources_eq_self dev s t h hw hh
  have h1 : prepareTexture dev hasRT s =
      (s, dev, [⟨Target.screen, Source.firstTex, 1, 1, false, dev.blendColorAlpha⟩], false) := by
    simp [prepareTexture, he, hconv]
  refine ⟨h1, ?_⟩
  rw [h1]
  exact h1

/-- Converged state used to exercise C6. -/
def sC6 : MultiframeState :=
  ⟨1, [⟨0, 0⟩], some ⟨1, 1⟩, some ⟨1, 1⟩, some ⟨1, 1⟩, some ⟨1, 1⟩⟩

/-- Device used to exercise C6. -/
def devC6 : DeviceState := ⟨1, 1, 1, 0, 1, 0, 1, 0, 1, 0, 1⟩

theorem C6_converged_idempotent_witness :
    sC6.accumTexture = some ⟨1, 1⟩ ∧
    (Texture.mk 1 1).width = devC6.width ∧
    (Texture.mk 1 1).height = devC6.height ∧
    sC6.sampleId = sC6.samples.length ∧
    (prepareTexture devC6 true sC6 =
      (sC6, devC6,
        [⟨Target.screen, Source.firstTex, 1, 1, false, devC6.blendColorAlpha⟩], false) ∧
     prepareTexture devC6 true (prepareTexture devC6 true sC6).1 =
      prepareTexture devC6 true sC6) :=
  ⟨rfl, rfl, rfl, rfl,
   C6_converged_idempotent devC6 true sC6 ⟨1, 1⟩ rfl rfl rfl rfl⟩

/-- C7: with a single configured sample (N = 1, `samples.length = 1`),
a step from the reset state with a scene render target available performs
exactly the PRIMED-path dual write (power `gamma` into the accumulation
target and power 1 into the output target) followed by the backbuffer
composite, never a draw with the inverse-gamma power `1/gamma`, leaves
the device unchanged, and returns `false`. -/
theorem C7_single_sample (dev : DeviceState) (s : MultiframeState)
    (hlen : s.samples.length = 1) (hid : s.sampleId = 0) :
    (prepareTexture dev true s).2.2.1 =
      [⟨Target.accum, Source.scene, 1, gamma, true, dev.blendColorAlpha⟩,
       ⟨Target.first, Source.scene, 1, 1, true, dev.blendColorAlpha⟩,
       ⟨Target.screen, Source.firstTex, 1, 1, false, dev.blendColorAlpha⟩] ∧
    (∀ d ∈ (prepareTexture dev true s).2.2.1, d.power ≠ 1 / gamma) ∧
    (prepareTexture dev true s).2.2.2 = false ∧
    (prepareTexture dev true s).1.sampleId = 1 ∧
    (prepareTexture dev true s).2.1 = dev := by
  have h2id := ensureResources_sampleId dev s
  have h2s := ensureResources_samples dev s
  refine ⟨?_, ?_, ?_, ?_, ?_⟩ <;>
    simp [prepareTexture, h2id, h2s, hlen, hid, gamma]
  norm_num

/-- Reset state with one sample used to exercise C7. -/
def sC7 : MultiframeState := ⟨0, [⟨0, 0⟩], none, none, none, none⟩

/-- Device used to exercise C7. -/
def devC7 : DeviceState := ⟨1, 1, 1, 0, 1, 0, 1, 0, 1, 0, 1⟩

theorem C7_single_sample_witness :
    sC7.samples.length = 1 ∧ sC7.sampleId = 0 ∧
    ((prepareTexture devC7 true sC7).2.2.1 =
      [⟨Target.accum, Source.scene, 1, gamma, true, devC7.blendColorAlpha⟩,
       ⟨Target.first, Source.scene, 1, 1, true, devC7.blendColorAlpha⟩,
       ⟨Target.screen, Source.firstTex, 1, 1, false, devC7.blendColorAlpha⟩] ∧
     (∀ d ∈ (prepareTexture devC7 true sC7).2.2.1, d.power ≠ 1 / gamma) ∧
     (prepareTexture devC7 true sC7).2.2.2 = false ∧
     (prepareTexture devC7 true sC7).1.sampleId = 1 ∧
     (prepareTexture devC7 true sC7).2.1 = devC7) :=
  ⟨rfl, rfl, C7_single_sample devC7 sC7 rfl rfl⟩

/-- State with stale 2×2 textures and accumulation in progress
(`sampleId = 2` of 4), used to exercise C2. -/
def sC2 : MultiframeState :=
  ⟨2, [⟨0, 0⟩, ⟨0, 0⟩, ⟨0, 0⟩, ⟨0, 0⟩],
   some ⟨2, 2⟩, some ⟨2, 2⟩, some ⟨2, 2⟩, some ⟨2, 2⟩⟩

/-- Device resized to 3×3, used to exercise C2. -/
def devC2 : DeviceState := ⟨3, 3, 10, 11, 12, 13, 10, 11, 12, 13, 1⟩

/-- C2 counterexample: with a 2×2 accumulation texture and a 3×3 device,
the next step reallocates resources but does not reset `sampleId` to 0 —
it continues from the old progress (2 becomes 3). -/
theorem C2_no_reset_counterexample :
    (prepareTexture devC2 true sC2).1.sampleId = 3 ∧
    ¬ (prepareTexture devC2 true sC2).1.sampleId = 0 := by
  decide

/-- C2 (amended): if the accumulation texture's dimensions differ from
the device's at a step, that step releases all four resources and
reallocates them at the device dimensions, but `sampleId` is NOT reset
to 0 — it retains its value (incremented by the normal end-of-step rule
when still below the sample count). -/
theorem C2_resize_reallocates_without_reset (dev : DeviceState)
    (hasRT : Bool) (s : MultiframeState) (t : Texture)
    (h : s.accumTexture = some t)
    (hd : t.width ≠ dev.width ∨ t.height ≠ dev.height) :
    (prepareTexture dev hasRT s).1.firstTexture = some ⟨dev.width, dev.height⟩ ∧
    (prepareTexture dev hasRT s).1.firstRenderTarget = some ⟨dev.width, dev.height⟩ ∧
    (prepareTexture dev hasRT s).1.accumTexture = some ⟨dev.width, dev.height⟩ ∧
    (prepareTexture dev hasRT s).1.accumRenderTarget = some ⟨dev.width, dev.height⟩ ∧
    (prepareTexture dev hasRT s).1.sampleId =
      (if s.sampleId < s.samples.length then s.sampleId + 1 else s.sampleId) := by
  have he : ensureResources dev s =
      { sampleId := s.sampleId, samples := s.samples,
        firstTexture := some ⟨dev.width, dev.height⟩,
        firstRenderTarget := some ⟨dev.width, dev.height⟩,
        accumTexture := some ⟨dev.width, dev.height⟩,
        accumRenderTarget := some ⟨dev.width, dev.height⟩ } := by
    unfold ensureResources resizeStep
    simp [h, hd, destroy_fields, MultiframeState.create]
  refine ⟨?_, ?_, ?_, ?_, ?_⟩ <;>
    · simp only [prepareTexture, he]
      split <;> simp

theorem C2_resize_reallocates_without_reset_witness :
    sC2.accumTexture = some ⟨2, 2⟩ ∧
    ((Texture.mk 2 2).width ≠ devC2.width ∨ (Texture.mk 2 2).height ≠ devC2.height) ∧
    ((prepareTexture devC2 true sC2).1.firstTexture = some ⟨devC2.width, devC2.height⟩ ∧
     (prepareTexture devC2 true sC2).1.firstRenderTarget = some ⟨devC2.width, devC2.height⟩ ∧
     (prepareTexture devC2 true sC2).1.accumTexture = some ⟨devC2.width, devC2.height⟩ ∧
     (prepareTexture devC2 true sC2).1.accumRenderTarget = some ⟨devC2.width, devC2.height⟩ ∧
     (prepareTexture devC2 true sC2).1.sampleId =
       (if sC2.sampleId < sC2.samples.length then sC2.sampleId + 1 else sC2.sampleId)) :=
  ⟨rfl, Or.inl (by decide),
   C2_resize_reallocates_without_reset devC2 true sC2 ⟨2, 2⟩ rfl (Or.inl (by decide))⟩

/-- Fresh state (4 samples pending, resources matching the device), used
to exercise C3 with no scene render target. -/
def sC3 : MultiframeState :=
  ⟨0, [⟨0, 0⟩, ⟨0, 0⟩, ⟨0, 0⟩, ⟨0, 0⟩],
   some ⟨1, 1⟩, some ⟨1, 1⟩, some ⟨1, 1⟩, some ⟨1, 1⟩⟩

/-- Device used to exercise C3. -/
def devC3 : DeviceState := ⟨1, 1, 1, 0, 1, 0, 1, 0, 1, 0, 1⟩

/-- C3 counterexample: with no scene render target available, the step
performs none of the blend/resolve writes (its only draw targets the
backbuffer) yet still increments `sampleId` from 0 to 1 — the sample is
counted although its writes did not happen. -/
theorem C3_counted_without_writes_counterexample :
    (prepareTexture devC3 false sC3).1.sampleId = 1 ∧
    ∀ d ∈ (prepareTexture devC3 false sC3).2.2.1, d.target = Target.screen := by
  decide

/-- C3 (amended): `sampleId` is incremented by a step exactly when it is
below the sample count, regardless of whether the blend/resolve writes
were performed; in particular, when no scene render target is available
the step issues only the backbuffer composite and still counts the
sample. -/
theorem C3_increment_regardless_of_writes (dev : DeviceState)
    (s : MultiframeState) (h : s.sampleId < s.samples.length) :
    (prepareTexture dev false s).1.sampleId = s.sampleId + 1 ∧
    (prepareTexture dev false s).2.2.1 =
      [⟨Target.screen, Source.firstTex, 1, 1, false, dev.blendColorAlpha⟩] := by
  have h2id := ensureResources_sampleId dev s
  have h2s := ensureResources_samples dev s
  constructor <;> simp [prepareTexture, h2id, h2s, h]

theorem C3_increment_regardless_of_writes_witness :
    sC3.sampleId < sC3.samples.length ∧
    ((prepareTexture devC3 false sC3).1.sampleId = sC3.sampleId + 1 ∧
     (prepareTexture devC3 false sC3).2.2.1 =
       [⟨Target.screen, Source.firstTex, 1, 1, false, devC3.blendColorAlpha⟩]) :=
  ⟨by decide, C3_increment_regardless_of_writes devC3 sC3 (by decide)⟩

/-- C10: every step that takes the constant-alpha accumulation blend path
(`0 < sampleId < N²`, scene render target present) leaves the device's
four cached blend-function factors exactly as they were before the call:
the factors are saved, changed at the GL level for the blend draw, and
restored through the device API. -/
theorem C10_blend_state_restored (dev : DeviceState) (s : MultiframeState)
    (h0 : 0 < s.sampleId) (h1 : s.sampleId < s.samples.length) :
    (prepareTexture dev true s).2.1.blendSrc = dev.blendSrc ∧
    (prepareTexture dev true s).2.1.blendDst = dev.blendDst ∧
    (prepareTexture dev true s).2.1.blendSrcAlpha = dev.blendSrcAlpha ∧
    (prepareTexture dev true s).2.1.blendDstAlpha = dev.blendDstAlpha := by
  have h2id := ensureResources_sampleId dev s
  have h2s := ensureResources_samples dev s
  have hne : s.sampleId ≠ 0 := Nat.pos_iff_ne_zero.mp h0
  refine ⟨?_, ?_, ?_, ?_⟩ <;>
    · simp only [prepareTexture, h2id, h2s]
      simp [h1, hne, glBlendFuncSeparate, glBlendColor, setBlendFunctionSeparate]
      split <;> simp

/-- Accumulating state (`sampleId = 2` of 4, resources matching), used to
exercise C10 and C4. -/
def sC10 : MultiframeState :=
  ⟨2, [⟨0, 0⟩, ⟨0, 0⟩, ⟨0, 0⟩, ⟨0, 0⟩],
   some ⟨1, 1⟩, some ⟨1, 1⟩, some ⟨1, 1⟩, some ⟨1, 1⟩⟩

/-- Device with distinguishable blend factors, used to exercise C10. -/
def devC10 : DeviceState := ⟨1, 1, 10, 11, 12, 13, 10, 11, 12, 13, 1⟩

theorem C10_blend_state_restored_witness :
    0 < sC10.sampleId ∧ sC10.sampleId < sC10.samples.length ∧
    ((prepareTexture devC10 true sC10).2.1.blendSrc = devC10.blendSrc ∧
     (prepareTexture devC10 true sC10).2.1.blendDst = devC10.blendDst ∧
     (prepareTexture devC10 true sC10).2.1.blendSrcAlpha = devC10.blendSrcAlpha ∧
     (prepareTexture devC10 true sC10).2.1.blendDstAlpha = devC10.blendDstAlpha) :=
  ⟨by decide, by decide,
   C10_blend_state_restored devC10 sC10 (by decide) (by decide)⟩

/-- The scalar constant-alpha recurrence computes the arithmetic mean:
after `k ≥ 1` steps the accumulator holds the mean of the first `k`
samples. -/
theorem accRec_mean (smp : ℕ → ℚ) :
    ∀ k, 1 ≤ k → accRec smp k = (∑ i ∈ Finset.Icc 1 k, smp i) / (k : ℚ)
  | 1, _ => by simp [accRec]
  | (k + 2), _ => by
      have ih := accRec_mean smp (k + 1) (by omega)
      have hsum : ∑ i ∈ Finset.Icc 1 (k + 2), smp i =
          (∑ i ∈ Finset.Icc 1 (k + 1), smp i) + smp (k + 2) :=
        Finset.sum_Icc_succ_top (by omega) smp
      have hk1 : ((k : ℚ) + 1) ≠ 0 := by positivity
      have hk2 : ((k : ℚ) + 2) ≠ 0 := by positivity
      rw [accRec, ih, hsum]
      push_cast
      field_simp

/-- C4: at accumulation step `k` (1-based, `k = sampleId + 1`, `k ≥ 2`),
the blend draw into the accumulation buffer carries constant blend alpha
exactly `1/k` (the source sets `1.0 / (this.sampleId + 1)`), and the
scalar accumulator replicating the constant-alpha recurrence holds the
arithmetic mean of the first `j` samples after `j ≥ 1` steps (step 1
writes the sample directly, weight `1/1`). -/
theorem C4_blend_weight (dev : DeviceState) (s : MultiframeState)
    (smp : ℕ → ℚ) (k j : ℕ) (hsk : s.sampleId + 1 = k) (hk2 : 2 ≤ k)
    (hkN : k ≤ s.samples.length) (hj : 1 ≤ j) :
    ((prepareTexture dev true s).2.2.1).head? =
      some ⟨Target.accum, Source.scene, 1, gamma, true, 1 / (k : ℚ)⟩ ∧
    accRec smp j = (∑ i ∈ Finset.Icc 1 j, smp i) / (j : ℚ) := by
  refine ⟨?_, accRec_mean smp j hj⟩
  have h2id := ensureResources_sampleId dev s
  have h2s := ensureResources_samples dev s
  have hne : s.sampleId ≠ 0 := by omega
  have hlt : s.sampleId < s.samples.length := by omega
  have halpha : ((s.sampleId : ℚ) + 1) = (k : ℚ) := by exact_mod_cast hsk
  simp only [prepareTexture, h2id, h2s]
  simp [hlt, hne, glBlendFuncSeparate, glBlendColor, halpha]
  split <;> simp

theorem C4_blend_weight_witness :
    sC10.sampleId + 1 = 3 ∧ 2 ≤ 3 ∧ 3 ≤ sC10.samples.length ∧ (1 : ℕ) ≤ 3 ∧
    (((prepareTexture devC10 true sC10).2.2.1).head? =
       some ⟨Target.accum, Source.scene, 1, gamma, true, 1 / ((3 : ℕ) : ℚ)⟩ ∧
     accRec (fun i => (i : ℚ)) 3 =
       (∑ i ∈ Finset.Icc (1 : ℕ) 3, ((i : ℚ))) / ((3 : ℕ) : ℚ)) :=
  ⟨rfl, by norm_num, by decide, by norm_num,
   C4_blend_weight devC10 sC10 (fun i => (i : ℚ)) 3 3 rfl (by norm_num)
     (by decide) (by norm_num)⟩

/-- The unsorted grid has exactly N² samples. -/
theorem genSamples_length (numSamples : ℕ) (r : ℕ → ℚ) :
    (genSamples numSamples r).length = numSamples * numSamples := by
  simp [genSamples, List.length_flatMap, Function.comp_def,
    List.map_const', List.sum_replicate, smul_eq_mul]

/-- Each grid coordinate `(x + rho)/N * 2 - 1` with `x < N` and
`rho ∈ [0, 1)` lies in `[-1, 1]`. -/
theorem coordBound (x numSamples : ℕ) (rho : ℚ) (hx : x < numSamples)
    (h0 : 0 ≤ rho) (h1 : rho < 1) :
    -1 ≤ ((x : ℚ) + rho) / (numSamples : ℚ) * 2 - 1 ∧
    ((x : ℚ) + rho) / (numSamples : ℚ) * 2 - 1 ≤ 1 := by
  have hNpos : (0 : ℚ) < (numSamples : ℚ) := by
    exact_mod_cast Nat.lt_of_le_of_lt (Nat.zero_le x) hx
  have hxQ : (x : ℚ) + 1 ≤ (numSamples : ℚ) := by exact_mod_cast hx
  constructor
  · have hnum : 0 ≤ ((x : ℚ) + rho) / (numSamples : ℚ) := by positivity
    linarith
  · have hle : ((x : ℚ) + rho) / (numSamples : ℚ) ≤ 1 := by
      rw [div_le_one hNpos]
      linarith
    linarith

/-- C5: for every grid size N ≥ 1 and every outcome of the random source
(values in `[0, 1)`), the constructed sample list has exactly N² offsets,
every coordinate lies in `[-1, 1]`, and the list is sorted by
non-decreasing distance from the origin (stated via squared lengths,
which order the same way as Euclidean lengths). -/
theorem C5_sample_sequence (numSamples : ℕ) (r : ℕ → ℚ) (_hN : 1 ≤ numSamples)
    (hr : ∀ i, 0 ≤ r i ∧ r i < 1) :
    (multiframeSamples numSamples r).length = numSamples * numSamples ∧
    (∀ v ∈ multiframeSamples numSamples r,
      -1 ≤ v.x ∧ v.x ≤ 1 ∧ -1 ≤ v.y ∧ v.y ≤ 1) ∧
    List.Pairwise (fun a b => sqLen a ≤ sqLen b) (multiframeSamples numSamples r) := by
  refine ⟨?_, ?_, ?_⟩
  · rw [multiframeSamples, List.length_mergeSort, genSamples_length]
  · intro v hv
    rw [multiframeSamples, List.mem_mergeSort] at hv
    simp only [genSamples, List.mem_flatMap, List.mem_map, List.mem_range] at hv
    obtain ⟨x, hx, y, hy, rfl⟩ := hv
    have bx := coordBound x numSamples (r (2 * (x * numSamples + y))) hx
      (hr _).1 (hr _).2
    have by2 := coordBound y numSamples (r (2 * (x * numSamples + y) + 1)) hy
      (hr _).1 (hr _).2
    exact ⟨bx.1, bx.2, by2.1, by2.2⟩
  · have hs := @List.sorted_mergeSort Vec2 sampleLE
      (fun a b c hab hbc => by
        simp only [sampleLE, decide_eq_true_eq] at *
        exact le_trans hab hbc)
      (fun a b => by
        simp only [sampleLE, Bool.or_eq_true, decide_eq_true_eq]
        exact le_total (sqLen a) (sqLen b))
      (genSamples numSamples r)
    exact hs.imp fun h => by simpa [sampleLE] using h

/-- Random stream used to exercise C5: constantly one half. -/
def rHalf : ℕ → ℚ := fun _ => 1 / 2

theorem C5_sample_sequence_witness :
    (1 : ℕ) ≤ 1 ∧ (∀ i, 0 ≤ rHalf i ∧ rHalf i < 1) ∧
    ((multiframeSamples 1 rHalf).length = 1 * 1 ∧
     (∀ v ∈ multiframeSamples 1 rHalf,
       -1 ≤ v.x ∧ v.x ≤ 1 ∧ -1 ≤ v.y ∧ v.y ≤ 1) ∧
     List.Pairwise (fun a b => sqLen a ≤ sqLen b) (multiframeSamples 1 rHalf)) :=
  ⟨le_refl 1, fun i => by norm_num [rHalf],
   C5_sample_sequence 1 rHalf (le_refl 1) (fun i => by norm_num [rHalf])⟩
